import Mathlib

/-!
Verification development for the flavor-signal repository.

The repository snapshot contains the TypeScript client (src/src/lib/api.ts)
and the front-end page (src/src/app/layout.tsx).  The review-analysis
pipeline itself (Semantic Matcher, Snippet Selector, Summarization Engine,
Pipeline Orchestrator) is served by a backend whose source is not part of
the snapshot; those components are modelled from the specification, as
marked in the doc comments below.  All other definitions are shallow
embeddings of the TypeScript source.
-/

namespace FlavorSignal

/-- Place record, from src/src/lib/api.ts (type Place): title plus optional
rating and review count (null and undefined are both modelled as none). -/
structure Place where
  title : String
  rating : Option ℚ
  reviews_count : Option ℤ
deriving DecidableEq

/-- Per-place analysis result, from src/src/lib/api.ts (type AnalyzeResult). -/
structure AnalyzeResult where
  place : Place
  reviews_fetched : ℕ
  mentions : ℕ
  summary : String
deriving DecidableEq

/-- Batch analysis response, from src/src/lib/api.ts (type AnalyzeResp). -/
structure AnalyzeResp where
  location : String
  item : String
  results : List AnalyzeResult
deriving DecidableEq

/-- Analyze request payload, from src/src/lib/api.ts (type AnalyzeReq). -/
structure AnalyzeReq where
  location : String
  item : String
deriving DecidableEq

/-- Review record, from the spec data model (section 3): free text plus an
optional rating.  The optional timestamp plays no role in any claim. -/
structure Review where
  text : String
  rating : Option ℚ
deriving DecidableEq

/-- Embedding of JavaScript String.prototype.trim (and of the
whitespace-stripping post-processing of the Summarization Engine): drop
leading and trailing whitespace characters. -/
def jsTrim (s : String) : String :=
  String.mk (((s.data.dropWhile Char.isWhitespace).reverse.dropWhile
    Char.isWhitespace).reverse)

/-- Truncation of a text to its first n characters, used by the Snippet
Selector model. -/
def strTruncate (n : ℕ) (s : String) : String :=
  String.mk (s.data.take n)

/-- Modelled from the spec: Semantic Matcher score (section 4.2).  The
backend source is missing from the snapshot.  The argument sim t stands for
the cosine similarity between the embedding of the text t and the embedding
of the item query (the query is embedded once and shared, so sim is a
function of the review text alone).  Empty review text is treated as
similarity 0, per the stated edge case. -/
def score (sim : String → ℚ) (text : String) : ℚ :=
  if text = "" then 0 else sim text

/-- Modelled from the spec: Semantic Matcher relevance decision (section
4.2): a review is relevant exactly when its score reaches the fixed
threshold τ. -/
def relevant (sim : String → ℚ) (τ : ℚ) (text : String) : Bool :=
  decide (τ ≤ score sim text)

/-- Modelled from the spec: maximum number of snippets forwarded to
summarization (section 4.3); a calibration constant. -/
def MAX_SNIPPETS : ℕ := 5

/-- Modelled from the spec: maximum character length of one snippet
(section 4.3); a calibration constant. -/
def SNIPPET_MAX_CHARS : ℕ := 300

/-- Insertion step of the score-descending stable sort used by the Snippet
Selector model: the new element goes after every element of strictly
greater or equal score, so equal scores keep their original order. -/
def insertDesc (x : String × ℚ) : List (String × ℚ) → List (String × ℚ)
  | [] => [x]
  | y :: ys => if y.2 < x.2 then x :: y :: ys else y :: insertDesc x ys

/-- Stable sort of scored texts by descending score: insertion sort with
the elements inserted in their original order, each going after all
already-placed elements of greater or equal score, so equal scores keep
their original relative order. -/
def sortByScoreDesc (l : List (String × ℚ)) : List (String × ℚ) :=
  l.foldl (fun acc x => insertDesc x acc) []

/-- Modelled from the spec: Snippet Selector (section 4.3).  Input is the
relevant reviews with their scores; it keeps the highest-scoring ones first
(stable in the original order on ties), takes at most MAX_SNIPPETS of them
and truncates each text. -/
def selectSnippets (scored : List (String × ℚ)) : List String :=
  ((sortByScoreDesc scored).take MAX_SNIPPETS).map
    (fun s => strTruncate SNIPPET_MAX_CHARS s.1)

/-- Modelled from the spec: the fixed sentinel summary returned without
calling the generation backend when no review is relevant (section 4.4). -/
def NOT_ENOUGH_MENTIONS : String := "not enough mentions"

/-- Modelled from the spec: the fixed sentinel summary recorded when the
generation backend fails for a place (section 4.4). -/
def SUMMARY_UNAVAILABLE : String := "summary unavailable"

/-- Modelled from the spec: prompt construction (section 4.4): states the
target item explicitly and lists the snippets, delimited. -/
def buildPrompt (item : String) (snippets : List String) : String :=
  "Summarize what reviewers say about " ++ item ++
    ". Use only the following review snippets:\n" ++
    String.intercalate "\n---\n" snippets

/-- Modelled from the spec: Summarization Engine (section 4.4).  The
backend argument maps a prompt to the generated text, none standing for
unreachable, error or timeout.  Returns the summary together with a flag
recording whether the generation backend was invoked.  Zero snippets
short-circuit to the NOT_ENOUGH_MENTIONS sentinel; a failed or
empty-after-stripping generation yields the SUMMARY_UNAVAILABLE sentinel;
otherwise the generated text is stripped of surrounding whitespace. -/
def summarize (backend : String → Option String) (item : String)
    (snippets : List String) : String × Bool :=
  if snippets.isEmpty then (NOT_ENOUGH_MENTIONS, false)
  else
    match backend (buildPrompt item snippets) with
    | none => (SUMMARY_UNAVAILABLE, true)
    | some t => (if jsTrim t = "" then SUMMARY_UNAVAILABLE else jsTrim t, true)

/-- Modelled from the spec: the reviews of one place paired with their
matcher scores (section 4.5, first step per place). -/
def scoredReviews (sim : String → ℚ) (rvs : List Review) : List (String × ℚ) :=
  rvs.map (fun rv => (rv.text, score sim rv.text))

/-- Modelled from the spec: the relevant reviews of one place, i.e. those
whose score reaches the threshold, kept in original order with their
scores. -/
def relevantScored (sim : String → ℚ) (τ : ℚ) (rvs : List Review) :
    List (String × ℚ) :=
  (scoredReviews sim rvs).filter (fun s => decide (τ ≤ s.2))

/-- Modelled from the spec: the snippets selected for one place. -/
def snippetsFor (sim : String → ℚ) (τ : ℚ) (rvs : List Review) : List String :=
  selectSnippets (relevantScored sim τ rvs)

/-- Modelled from the spec: the Pipeline Orchestrator steps for one place
(section 4.5): match all reviews against the shared query similarity,
count mentions, select snippets, summarize (or short-circuit), and build
one AnalyzeResult. -/
def analyzePlace (sim : String → ℚ) (τ : ℚ) (backend : String → Option String)
    (item : String) (p : Place) (rvs : List Review) : AnalyzeResult :=
  { place := p
    reviews_fetched := rvs.length
    mentions := (relevantScored sim τ rvs).length
    summary := (summarize backend item (snippetsFor sim τ rvs)).1 }

/-- Modelled from the spec: the Pipeline Orchestrator over one batch
(section 4.5): every place is processed independently and the per-place
results are aggregated in input order. -/
def analyzeBatch (sim : String → ℚ) (τ : ℚ) (backend : String → Option String)
    (location item : String) (batch : List (Place × List Review)) : AnalyzeResp :=
  { location := location
    item := item
    results := batch.map (fun q => analyzePlace sim τ backend item q.1 q.2) }

/-- Inserting one element grows the sorted list by one. -/
lemma insertDesc_length (x : String × ℚ) (l : List (String × ℚ)) :
    (insertDesc x l).length = l.length + 1 := by
  induction l with
  | nil => rfl
  | cons y ys ih =>
    simp only [insertDesc]
    split <;> simp [ih]

/-- Folding insertions over a list adds its length to the accumulator. -/
lemma foldl_insertDesc_length (l : List (String × ℚ)) (acc : List (String × ℚ)) :
    (l.foldl (fun a x => insertDesc x a) acc).length = acc.length + l.length := by
  induction l generalizing acc with
  | nil => simp
  | cons y ys ih =>
    simp only [List.foldl]
    rw [ih, insertDesc_length]
    simp only [List.length_cons]
    omega

/-- The stable sort preserves length. -/
lemma sortByScoreDesc_length (l : List (String × ℚ)) :
    (sortByScoreDesc l).length = l.length := by
  simpa using foldl_insertDesc_length l []

/-- The length of the snippet selection is the smaller of MAX_SNIPPETS and
the number of relevant reviews. -/
lemma selectSnippets_length (l : List (String × ℚ)) :
    (selectSnippets l).length = min MAX_SNIPPETS l.length := by
  simp [selectSnippets, sortByScoreDesc_length]

/-- The snippet selection is empty exactly when the relevant set is empty. -/
lemma selectSnippets_eq_nil_iff (l : List (String × ℚ)) :
    selectSnippets l = [] ↔ l = [] := by
  rw [← List.length_eq_zero, selectSnippets_length, ← List.length_eq_zero (l := l)]
  simp [MAX_SNIPPETS]

/-- C1: in every AnalyzeResult produced by the orchestrator, mentions is at
most reviews_fetched, because the mentioned reviews are a filtered sublist
of the fetched reviews of that place.  (The orchestrator is modelled from
the spec; its source is not in the repository snapshot.) -/
theorem flavor_C1 (sim : String → ℚ) (τ : ℚ) (backend : String → Option String)
    (location item : String) (batch : List (Place × List Review))
    (r : AnalyzeResult)
    (hr : r ∈ (analyzeBatch sim τ backend location item batch).results) :
    r.mentions ≤ r.reviews_fetched := by
  simp only [analyzeBatch, List.mem_map] at hr
  obtain ⟨q, -, rfl⟩ := hr
  simpa [analyzePlace, relevantScored, scoredReviews] using
    (List.length_filter_le _ (scoredReviews sim q.2))

/-- C1 witness: the inequality obtained from flavor_C1 on a concrete
one-place batch. -/
theorem flavor_C1_witness :
    (analyzePlace (fun _ => (1 : ℚ)) 1 (fun _ => some "ok") "it"
        ⟨"A", none, none⟩ [⟨"tasty", none⟩]).mentions ≤
      (analyzePlace (fun _ => (1 : ℚ)) 1 (fun _ => some "ok") "it"
        ⟨"A", none, none⟩ [⟨"tasty", none⟩]).reviews_fetched :=
  flavor_C1 (fun _ => 1) 1 (fun _ => some "ok") "loc" "it"
    [(⟨"A", none, none⟩, [⟨"tasty", none⟩])] _ (by simp [analyzeBatch])

/-- A concrete similarity assignment under which every text, the empty text
included, has cosine similarity 1 with the item query. -/
def simOne : String → ℚ := fun _ => 1

/-- C2 counterexample: the claim fails at a review with empty text.  Under
simOne the cosine similarity of the empty review with the query is 1, which
reaches the threshold 1, yet the matcher marks the review not relevant,
because section 4.2 treats empty review text as similarity 0. -/
theorem flavor_C2_cex :
    relevant simOne 1 "" = false ∧ (1 : ℚ) ≤ simOne "" := by
  constructor
  · decide
  · decide

/-- C2 amended: for every review with non-empty text the matcher marks it
relevant exactly when the cosine similarity reaches the threshold τ, with
exactness at the boundary; a review with empty text is never relevant when
τ is positive, its similarity being treated as 0. -/
theorem flavor_C2_amended (sim : String → ℚ) (τ : ℚ) (text : String)
    (hτ : 0 < τ) :
    (text ≠ "" → (relevant sim τ text = true ↔ τ ≤ sim text)) ∧
      relevant sim τ "" = false := by
  constructor
  · intro h
    simp [relevant, score, h]
  · simp only [relevant, score, if_pos rfl, decide_eq_false_iff_not, not_le]
    exact hτ

/-- C2 witness: the amended statement instantiated at the threshold 1, a
non-empty review text and the concrete similarity simOne. -/
theorem flavor_C2_amended_witness :
    (relevant simOne 1 "x" = true ↔ (1 : ℚ) ≤ simOne "x") ∧
      relevant simOne 1 "" = false := by
  have h := flavor_C2_amended simOne 1 "x" (by decide)
  exact ⟨h.1 (by decide), h.2⟩

/-- C3: when a place has zero mentions, its summary is the fixed
NOT_ENOUGH_MENTIONS sentinel, the Summarization Engine reports that the
generation backend was not invoked, and the whole result is independent of
the backend (any other backend yields the identical result). -/
theorem flavor_C3 (sim : String → ℚ) (τ : ℚ) (b bother : String → Option String)
    (item : String) (p : Place) (rvs : List Review)
    (h : (analyzePlace sim τ b item p rvs).mentions = 0) :
    (analyzePlace sim τ b item p rvs).summary = NOT_ENOUGH_MENTIONS ∧
      (summarize b item (snippetsFor sim τ rvs)).2 = false ∧
      analyzePlace sim τ b item p rvs = analyzePlace sim τ bother item p rvs := by
  have hrel : relevantScored sim τ rvs = [] := by
    simpa [analyzePlace] using h
  have hsnip : snippetsFor sim τ rvs = [] := by
    rw [snippetsFor, selectSnippets_eq_nil_iff]
    exact hrel
  refine ⟨?_, ?_, ?_⟩
  · simp [analyzePlace, hsnip, summarize]
  · simp [hsnip, summarize]
  · simp [analyzePlace, hsnip, summarize]

/-- C3 witness: a concrete place whose single review scores below the
threshold, so it has zero mentions; flavor_C3 yields the sentinel summary,
the not-invoked flag and backend independence there. -/
theorem flavor_C3_witness :
    (analyzePlace (fun _ => (0 : ℚ)) 1 (fun _ => some "x") "it"
        ⟨"A", none, none⟩ [⟨"pizza", none⟩]).summary = NOT_ENOUGH_MENTIONS ∧
      (summarize (fun _ => some "x") "it"
        (snippetsFor (fun _ => (0 : ℚ)) 1 [⟨"pizza", none⟩])).2 = false ∧
      analyzePlace (fun _ => (0 : ℚ)) 1 (fun _ => some "x") "it"
          ⟨"A", none, none⟩ [⟨"pizza", none⟩] =
        analyzePlace (fun _ => (0 : ℚ)) 1 (fun _ => none) "it"
          ⟨"A", none, none⟩ [⟨"pizza", none⟩] :=
  flavor_C3 (fun _ => 0) 1 (fun _ => some "x") (fun _ => none) "it"
    ⟨"A", none, none⟩ [⟨"pizza", none⟩] (by decide)

/-- The Summarization Engine consults the backend only at the prompt built
for its snippets: two backends agreeing there summarize identically. -/
lemma summarize_backend_congr (b bother : String → Option String)
    (item : String) (sn : List String)
    (h : b (buildPrompt item sn) = bother (buildPrompt item sn)) :
    summarize b item sn = summarize bother item sn := by
  simp only [summarize, h]

/-- One place's result depends on the backend only through its value at
that place's prompt. -/
lemma analyzePlace_backend_congr (sim : String → ℚ) (τ : ℚ)
    (b bother : String → Option String) (item : String) (p : Place)
    (rvs : List Review)
    (h : b (buildPrompt item (snippetsFor sim τ rvs)) =
      bother (buildPrompt item (snippetsFor sim τ rvs))) :
    analyzePlace sim τ b item p rvs = analyzePlace sim τ bother item p rvs := by
  simp only [analyzePlace, summarize_backend_congr b bother item _ h]

/-- Modelled from the spec: the generation backend failing at a prompt
(section 4.4): unreachable, erroring or timing out (the none outcome), or
returning a string that is empty after stripping surrounding whitespace
(the error-or-empty-string failure mode). -/
def backendFails (b : String → Option String) (prompt : String) : Prop :=
  b prompt = none ∨ ∃ t, b prompt = some t ∧ jsTrim t = ""

/-- With at least one snippet, any failing backend outcome, none as well as
an empty generated string, yields the SUMMARY_UNAVAILABLE sentinel and an
invoked backend. -/
lemma summarize_fails (b : String → Option String) (item : String)
    (sn : List String) (hsn : sn ≠ [])
    (hf : backendFails b (buildPrompt item sn)) :
    summarize b item sn = (SUMMARY_UNAVAILABLE, true) := by
  have hempty : sn.isEmpty = false := by
    cases sn with
    | nil => exact absurd rfl hsn
    | cons a l => rfl
  rcases hf with h | ⟨t, ht, htrim⟩
  · simp [summarize, hempty, h]
  · simp [summarize, hempty, ht, htrim]

/-- C4: if the generation backend fails, by being unreachable, erroring,
timing out or returning an empty string, on the prompt of one place that
has relevant reviews, the batch response still lists every place in order:
the sibling places each carry the result an agreeing healthy backend would
give them, the failing place carries the SUMMARY_UNAVAILABLE sentinel, and
the response length equals the batch length. -/
theorem flavor_C4 (sim : String → ℚ) (τ : ℚ) (b bgood : String → Option String)
    (location item : String) (pre post : List (Place × List Review))
    (p : Place) (rvs : List Review)
    (hrel : relevantScored sim τ rvs ≠ [])
    (hfail : backendFails b (buildPrompt item (snippetsFor sim τ rvs)))
    (hagree : ∀ q ∈ pre ++ post,
      bgood (buildPrompt item (snippetsFor sim τ q.2)) =
        b (buildPrompt item (snippetsFor sim τ q.2))) :
    (analyzeBatch sim τ b location item (pre ++ (p, rvs) :: post)).results =
        pre.map (fun q => analyzePlace sim τ bgood item q.1 q.2) ++
          analyzePlace sim τ b item p rvs ::
            post.map (fun q => analyzePlace sim τ bgood item q.1 q.2) ∧
      (analyzePlace sim τ b item p rvs).summary = SUMMARY_UNAVAILABLE ∧
      (analyzeBatch sim τ b location item (pre ++ (p, rvs) :: post)).results.length =
        pre.length + 1 + post.length := by
  have hsn : snippetsFor sim τ rvs ≠ [] := by
    rw [snippetsFor]
    simpa [selectSnippets_eq_nil_iff] using hrel
  refine ⟨?_, ?_, ?_⟩
  · simp only [analyzeBatch, List.map_append, List.map_cons]
    congr 1
    · exact List.map_congr_left fun q hq =>
        (analyzePlace_backend_congr sim τ bgood b item q.1 q.2
          (hagree q (List.mem_append_left _ hq))).symm
    · congr 1
      exact List.map_congr_left fun q hq =>
        (analyzePlace_backend_congr sim τ bgood b item q.1 q.2
          (hagree q (List.mem_append_right _ hq))).symm
  · simp [analyzePlace, summarize_fails b item _ hsn hfail]
  · simp [analyzeBatch]
    omega

/-- Fixture for the C4 witness: every review text has similarity 1. -/
def c4Sim : String → ℚ := fun _ => 1

/-- Fixture for the C4 witness: the sibling place before the failing one. -/
def c4Pre : List (Place × List Review) := [(⟨"P1", none, none⟩, [⟨"tasty", none⟩])]

/-- Fixture for the C4 witness: the sibling place after the failing one. -/
def c4Post : List (Place × List Review) := [(⟨"P3", none, none⟩, [⟨"yummy", none⟩])]

/-- Fixture for the C4 witness: the failing place. -/
def c4Place : Place := ⟨"P2", none, none⟩

/-- Fixture for the C4 witness: the failing place's reviews. -/
def c4Rvs : List Review := [⟨"bland", none⟩]

/-- Fixture for the C4 witness: the prompt of the failing place. -/
def c4FailPrompt : String := buildPrompt "it" (snippetsFor c4Sim 1 c4Rvs)

/-- Fixture for the C4 witness: a backend generating an empty string on
the failing place's prompt and normal text everywhere else. -/
def c4Backend : String → Option String :=
  fun s => if s = c4FailPrompt then some "" else some "ok"

/-- Fixture for the C4 witness: a healthy backend agreeing with c4Backend
away from the failing prompt. -/
def c4Good : String → Option String := fun _ => some "ok"

/-- C4 witness: a three-place batch whose middle place has a relevant
review and draws an empty-string generation; flavor_C4 yields the ordered
three-place response, with both siblings carrying their healthy-backend
results and the middle place the sentinel. -/
theorem flavor_C4_witness :
    (analyzeBatch c4Sim 1 c4Backend "loc" "it"
        (c4Pre ++ (c4Place, c4Rvs) :: c4Post)).results =
        c4Pre.map (fun q => analyzePlace c4Sim 1 c4Good "it" q.1 q.2) ++
          analyzePlace c4Sim 1 c4Backend "it" c4Place c4Rvs ::
            c4Post.map (fun q => analyzePlace c4Sim 1 c4Good "it" q.1 q.2) ∧
      (analyzePlace c4Sim 1 c4Backend "it" c4Place c4Rvs).summary =
        SUMMARY_UNAVAILABLE ∧
      (analyzeBatch c4Sim 1 c4Backend "loc" "it"
        (c4Pre ++ (c4Place, c4Rvs) :: c4Post)).results.length =
        c4Pre.length + 1 + c4Post.length :=
  flavor_C4 c4Sim 1 c4Backend c4Good "loc" "it" c4Pre c4Post c4Place c4Rvs
    (by decide)
    (Or.inr ⟨"", by decide, by decide⟩)
    (by decide)

/-- From src/src/app/layout.tsx (Home results grid): the cards rendered are
the results filtered to those with mentions greater than 0, kept in the
order of the results array. -/
def renderedCards (resp : AnalyzeResp) : List AnalyzeResult :=
  resp.results.filter (fun r => decide (0 < r.mentions))

/-- C5: the orchestrator's results sequence lists the places in discovery
order (the k-th result belongs to the k-th place of the batch), and the UI
grid is an order-preserving sublist of the results sequence: the cards are
never re-sorted.  (The orchestrator half is modelled from the spec.) -/
theorem flavor_C5 (sim : String → ℚ) (τ : ℚ) (b : String → Option String)
    (location item : String) (batch : List (Place × List Review))
    (resp : AnalyzeResp) :
    (analyzeBatch sim τ b location item batch).results.map
        (fun r => r.place) = batch.map (fun q => q.1) ∧
      (renderedCards resp).Sublist resp.results := by
  constructor
  · simp [analyzeBatch, analyzePlace, List.map_map, Function.comp]
  · exact List.filter_sublist resp.results

/-- From src/src/app/layout.tsx (the canSubmit memo): a submission is
allowed when both the location field and the item field are non-empty
after trimming. -/
def canSubmit (location item : String) : Bool :=
  decide (0 < (jsTrim location).length) && decide (0 < (jsTrim item).length)

/-- From src/src/app/layout.tsx (onSubmit): the analyze call issued by one
form submission, none when the guard returns early (fields invalid or a
request already in flight); otherwise the payload carries exactly the
trimmed location and item. -/
def submitRequest (location item : String) (loading : Bool) : Option AnalyzeReq :=
  if !canSubmit location item || loading then none
  else some ⟨jsTrim location, jsTrim item⟩

/-- A string of positive length is not the empty string. -/
lemma string_ne_empty_of_length_pos {s : String} (h : 0 < s.length) : s ≠ "" := by
  intro heq
  rw [heq] at h
  exact absurd h (by decide)

/-- A non-empty string has positive length. -/
lemma string_length_pos_of_ne_empty {s : String} (h : s ≠ "") : 0 < s.length := by
  cases s with
  | mk data =>
    cases data with
    | nil => exact absurd rfl h
    | cons a l => simp [String.length]

/-- The guard canSubmit holds exactly when both fields trim to something
non-empty. -/
lemma canSubmit_eq_true_iff (location item : String) :
    canSubmit location item = true ↔
      jsTrim location ≠ "" ∧ jsTrim item ≠ "" := by
  rw [canSubmit, Bool.and_eq_true]
  constructor
  · intro h
    exact ⟨string_ne_empty_of_length_pos (of_decide_eq_true h.1),
      string_ne_empty_of_length_pos (of_decide_eq_true h.2)⟩
  · intro h
    exact ⟨decide_eq_true (string_length_pos_of_ne_empty h.1),
      decide_eq_true (string_length_pos_of_ne_empty h.2)⟩

/-- C6: a submission issues the analyze call only when both fields are
non-empty after trimming, the payload then being exactly the trimmed
fields; when either field trims to empty, no call is issued. -/
theorem flavor_C6 (location item : String) (loading : Bool) :
    (∀ req, submitRequest location item loading = some req →
      jsTrim location ≠ "" ∧ jsTrim item ≠ "" ∧
        req = ⟨jsTrim location, jsTrim item⟩) ∧
      ((jsTrim location = "" ∨ jsTrim item = "") →
        submitRequest location item loading = none) := by
  constructor
  · intro req h
    rw [submitRequest] at h
    by_cases hc : canSubmit location item = true
    · have hcs := (canSubmit_eq_true_iff location item).mp hc
      cases loading with
      | true => rw [hc] at h; simp at h
      | false =>
        rw [hc] at h
        simp at h
        exact ⟨hcs.1, hcs.2, h.symm⟩
    · have hfalse : canSubmit location item = false := by
        simpa using hc
      rw [hfalse] at h
      simp at h
  · intro hor
    have hc : canSubmit location item = false := by
      rw [← Bool.not_eq_true]
      intro hx
      have hcs := (canSubmit_eq_true_iff location item).mp hx
      rcases hor with h | h
      · exact hcs.1 h
      · exact hcs.2 h
    rw [submitRequest, hc]
    simp

/-- C6 witness: a trimmed payload obtained through flavor_C6 on concrete
field values, and a refused submission whose location trims to empty. -/
theorem flavor_C6_witness :
    (jsTrim " a " ≠ "" ∧ jsTrim "b" ≠ "" ∧
      (⟨"a", "b"⟩ : AnalyzeReq) = ⟨jsTrim " a ", jsTrim "b"⟩) ∧
      submitRequest "  " "b" false = none := by
  constructor
  · exact (flavor_C6 " a " "b" false).1 ⟨"a", "b"⟩ (by decide)
  · exact (flavor_C6 "  " "b" false).2 (Or.inl (by decide))

/-- Component state of the Home page, from src/src/app/layout.tsx: the two
input fields and the data, loading and err useState hooks. -/
structure UiState where
  location : String
  item : String
  data : Option AnalyzeResp
  loading : Bool
  err : Option String
deriving DecidableEq

/-- From src/src/app/layout.tsx (onSubmit): the state once one submission
has completed.  The outcome argument is the result of the awaited analyze
call; the try branch stores the response, the catch branch stores the
error message, the finally branch clears loading, and the guard leaves the
state unchanged when the fields are invalid or a request is in flight. -/
def onSubmit (s : UiState) (outcome : Except String AnalyzeResp) : UiState :=
  if !canSubmit s.location s.item || s.loading then s
  else
    match outcome with
    | Except.ok resp => { s with data := some resp, err := none, loading := false }
    | Except.error m => { s with data := none, err := some m, loading := false }

/-- From src/src/app/layout.tsx: the results section renders only when
loading is over and data is present. -/
def showsResults (s : UiState) : Bool :=
  !s.loading && s.data.isSome

/-- From src/src/app/layout.tsx: the error box renders exactly when err is
present. -/
def showsError (s : UiState) : Bool :=
  s.err.isSome

/-- Shape of the fetch response consumed by analyze, from
src/src/lib/api.ts: the ok flag, numeric status, status text, the body
text (none when reading the body itself fails, which the code turns into
the empty string), and the parsed JSON body. -/
structure HttpResp where
  ok : Bool
  status : ℕ
  statusText : String
  bodyText : Option String
  json : AnalyzeResp

/-- From src/src/lib/api.ts (analyze): returns the parsed JSON body when
res.ok holds, and otherwise throws an Error whose message is built from
the status code and the body text, the JavaScript or-else falling back to
the status text when the body text is empty. -/
def analyze (res : HttpResp) : Except String AnalyzeResp :=
  if res.ok then Except.ok res.json
  else
    Except.error ("API error (" ++ toString res.status ++ "): " ++
      (if res.bodyText.getD "" = "" then res.statusText else res.bodyText.getD ""))

/-- C8: analyze returns the parsed body exactly on an ok response; on a
non-ok response it throws an error whose message contains the status code,
and a completed submission carrying that error leaves the UI rendering the
error box with that message and no results. -/
theorem flavor_C8 (res : HttpResp) :
    (res.ok = true → analyze res = Except.ok res.json) ∧
      (res.ok = false →
        (∃ pre post, analyze res = Except.error (pre ++ toString res.status ++ post)) ∧
          ∀ msg s, analyze res = Except.error msg →
            canSubmit s.location s.item = true → s.loading = false →
            (onSubmit s (analyze res)).err = some msg ∧
              (onSubmit s (analyze res)).data = none ∧
              showsResults (onSubmit s (analyze res)) = false ∧
              showsError (onSubmit s (analyze res)) = true) := by
  constructor
  · intro h
    simp [analyze, h]
  · intro h
    constructor
    · refine ⟨"API error (", "): " ++
        (if res.bodyText.getD "" = "" then res.statusText else res.bodyText.getD ""), ?_⟩
      simp only [analyze, h, Bool.false_eq_true, if_false, String.append_assoc]
    · intro msg s hmsg hcs hld
      rw [hmsg]
      simp [onSubmit, hcs, hld, showsResults, showsError]

/-- C8 witness: flavor_C8 applied to a concrete ok response and a concrete
404 response, the latter driving a completed submission from a concrete
valid state. -/
theorem flavor_C8_witness :
    analyze ⟨true, 200, "OK", some "", ⟨"l", "i", []⟩⟩ = Except.ok ⟨"l", "i", []⟩ ∧
      (∃ pre post, analyze ⟨false, 404, "NF", some "boom", ⟨"l", "i", []⟩⟩ =
        Except.error (pre ++ toString (404 : ℕ) ++ post)) ∧
      (onSubmit ⟨"a", "b", none, false, none⟩
          (analyze ⟨false, 404, "NF", some "boom", ⟨"l", "i", []⟩⟩)).err =
        some "API error (404): boom" ∧
      (onSubmit ⟨"a", "b", none, false, none⟩
          (analyze ⟨false, 404, "NF", some "boom", ⟨"l", "i", []⟩⟩)).data = none ∧
      showsResults (onSubmit ⟨"a", "b", none, false, none⟩
        (analyze ⟨false, 404, "NF", some "boom", ⟨"l", "i", []⟩⟩)) = false ∧
      showsError (onSubmit ⟨"a", "b", none, false, none⟩
        (analyze ⟨false, 404, "NF", some "boom", ⟨"l", "i", []⟩⟩)) = true := by
  have hok := (flavor_C8 ⟨true, 200, "OK", some "", ⟨"l", "i", []⟩⟩).1 rfl
  have hbad := (flavor_C8 ⟨false, 404, "NF", some "boom", ⟨"l", "i", []⟩⟩).2 rfl
  have hui := hbad.2 "API error (404): boom" ⟨"a", "b", none, false, none⟩
    rfl (by decide) rfl
  exact ⟨hok, hbad.1, hui.1, hui.2.1, hui.2.2.1, hui.2.2.2⟩

/-- C9: once a submission that passed the guard completes, loading is
cleared and data and err are never both present: a failed analyze call
leaves data null and err holding the message, a successful one leaves err
null and data holding the response. -/
theorem flavor_C9 (s : UiState) (o : Except String AnalyzeResp)
    (hcs : canSubmit s.location s.item = true) (hld : s.loading = false) :
    (onSubmit s o).loading = false ∧
      ((onSubmit s o).data.isSome && (onSubmit s o).err.isSome) = false ∧
      (∀ m, o = Except.error m →
        (onSubmit s o).data = none ∧ (onSubmit s o).err = some m) ∧
      (∀ r, o = Except.ok r →
        (onSubmit s o).err = none ∧ (onSubmit s o).data = some r) := by
  cases o with
  | ok r => simp [onSubmit, hcs, hld]
  | error m => simp [onSubmit, hcs, hld]

/-- C9 witness: flavor_C9 on a concrete valid state and a concrete
successful outcome. -/
theorem flavor_C9_witness :
    (onSubmit ⟨"a", "b", none, false, none⟩
      (Except.ok ⟨"l", "i", []⟩)).loading = false ∧
      ((onSubmit ⟨"a", "b", none, false, none⟩
          (Except.ok ⟨"l", "i", []⟩)).data.isSome &&
        (onSubmit ⟨"a", "b", none, false, none⟩
          (Except.ok ⟨"l", "i", []⟩)).err.isSome) = false ∧
      (onSubmit ⟨"a", "b", none, false, none⟩
        (Except.ok ⟨"l", "i", []⟩)).err = none ∧
      (onSubmit ⟨"a", "b", none, false, none⟩
        (Except.ok ⟨"l", "i", []⟩)).data = some ⟨"l", "i", []⟩ := by
  have h := flavor_C9 ⟨"a", "b", none, false, none⟩ (Except.ok ⟨"l", "i", []⟩)
    (by decide) rfl
  exact ⟨h.1, h.2.1, (h.2.2.2 ⟨"l", "i", []⟩ rfl).1, (h.2.2.2 ⟨"l", "i", []⟩ rfl).2⟩

/-- From src/src/app/layout.tsx (results header): the restaurant count
shown in the header meta row is the length of the full results array. -/
def resultsHeaderCount (resp : AnalyzeResp) : ℕ :=
  resp.results.length

/-- Splitting a list by a predicate splits its length. -/
lemma length_filter_partition {α : Type} (p : α → Bool) (l : List α) :
    l.length = (l.filter p).length + (l.filter (fun a => !(p a))).length := by
  induction l with
  | nil => rfl
  | cons a l ih =>
    by_cases h : p a <;> simp [List.filter, h, ih] <;> omega

/-- C7: the grid renders exactly the results with positive mentions, in
their original order (an order-preserving sublist of results), while the
header count equals the rendered cards plus the omitted zero-mention
results, i.e. the length of the full results array. -/
theorem flavor_C7 (resp : AnalyzeResp) :
    (∀ r ∈ renderedCards resp, 0 < r.mentions) ∧
      (∀ r ∈ resp.results, 0 < r.mentions → r ∈ renderedCards resp) ∧
      (renderedCards resp).Sublist resp.results ∧
      resultsHeaderCount resp = (renderedCards resp).length +
        (resp.results.filter (fun r => decide (r.mentions = 0))).length := by
  refine ⟨?_, ?_, List.filter_sublist resp.results, ?_⟩
  · intro r hr
    rw [renderedCards, List.mem_filter] at hr
    exact of_decide_eq_true hr.2
  · intro r hr h
    rw [renderedCards, List.mem_filter]
    exact ⟨hr, decide_eq_true h⟩
  · have hpt : ∀ r : AnalyzeResult,
        (!(decide (0 < r.mentions))) = decide (r.mentions = 0) := by
      intro r
      cases hm : r.mentions <;> simp
    have hcongr : resp.results.filter (fun r => !(decide (0 < r.mentions))) =
        resp.results.filter (fun r => decide (r.mentions = 0)) := by
      exact List.filter_congr fun r _ => hpt r
    rw [resultsHeaderCount, renderedCards, ← hcongr]
    exact length_filter_partition (fun r => decide (0 < r.mentions)) resp.results

/-- C7 witness: a concrete response with one positive-mention result, whose
card membership and positivity are obtained from flavor_C7. -/
theorem flavor_C7_witness :
    (0 : ℕ) < (⟨⟨"A", none, none⟩, 3, 1, "s"⟩ : AnalyzeResult).mentions ∧
      (⟨⟨"A", none, none⟩, 3, 1, "s"⟩ : AnalyzeResult) ∈
        renderedCards ⟨"l", "i", [⟨⟨"A", none, none⟩, 3, 1, "s"⟩]⟩ := by
  have h := flavor_C7 ⟨"l", "i", [⟨⟨"A", none, none⟩, 3, 1, "s"⟩]⟩
  exact ⟨h.1 _ (by decide), h.2.1 _ (by decide) (by decide)⟩

/-- Embedding of JavaScript Math.round on the rational ratings: round half
toward positive infinity. -/
def jsRound (q : ℚ) : ℤ :=
  ⌊q + 1 / 2⌋

/-- Embedding of JavaScript toFixed with one digit, for the clamped
non-negative ratings it is applied to: one decimal digit, rounding half
up. -/
def toFixed1 (q : ℚ) : String :=
  toString (⌊q * 10 + 1 / 2⌋ / 10) ++ "." ++ toString (⌊q * 10 + 1 / 2⌋ % 10)

/-- Rendering of the Stars component, from src/src/app/layout.tsx: the
five star glyphs (true for a filled star), the aria-label of the stars
div, and the text beside them. -/
structure StarsView where
  stars : List Bool
  ariaLabel : String
  starText : String
deriving DecidableEq

/-- From src/src/app/layout.tsx (Stars): a numeric rating is clamped to
the interval from 0 to 5, a missing rating stays null; the JavaScript
truthiness tests on the clamped value send both null and 0 to the
no-rating rendering; the i-th of the five glyphs is filled when i is below
the rounded clamped rating. -/
def starsView (rating : Option ℚ) : StarsView :=
  let r : Option ℚ := match rating with
    | some x => some (max 0 (min 5 x))
    | none => none
  let full : ℕ := match r with
    | some x => if x = 0 then 0 else (jsRound x).toNat
    | none => 0
  { stars := (List.range 5).map (fun i => decide (i < full))
    ariaLabel := match r with
      | some x => if x = 0 then "No rating"
        else "Rating " ++ toFixed1 x ++ " out of 5"
      | none => "No rating"
    starText := match r with
      | some x => if x = 0 then "—" else toFixed1 x
      | none => "—" }

/-- C10: for every rating input, including values below 0, above 5 and the
missing rating, the Stars component renders exactly 5 glyphs with at most
5 of them filled, and a rating of exactly 0 renders identically to a
missing rating, with aria-label No rating and the em-dash text. -/
theorem flavor_C10 (rating : Option ℚ) :
    (starsView rating).stars.length = 5 ∧
      (starsView rating).stars.count true ≤ 5 ∧
      starsView (some 0) = starsView none ∧
      (starsView (some 0)).ariaLabel = "No rating" ∧
      (starsView (some 0)).starText = "—" := by
  have hlen : (starsView rating).stars.length = 5 := by
    cases rating <;> simp [starsView]
  refine ⟨hlen, ?_, by decide, by decide, by decide⟩
  have h := List.count_le_length (a := true) (l := (starsView rating).stars)
  omega

end FlavorSignal
